import Mathlib

/-!
# Verification of the NeuroDoc batch query runner and performance aggregator

Shallow embedding of `NeuroDocWorkflow.batch_queries` and
`NeuroDocWorkflow.analyze_performance` from `examples/python_client.py`.

Modelling conventions:
* The remote call `self.client.query_documents(query)` is abstracted as a
  function `executeOne : String → Except String ApiResponse`; `Except.error m`
  models a raised exception whose `str()` is `m`.
* A JSON result dict is modelled by `ApiResponse`; each field has type
  `Option (Option _)`: the outer layer records whether the key is present in
  the dict, the inner layer is the Python value (`none` = Python `None`).
* Python `d.get(k)` is `getField`, `d.get(k, default)` is `getFieldD`.
* The outcome dicts appended to `results` are modelled by `OutcomeRecord`,
  again with an outer `Option` per field recording key presence, since
  `batch_queries` and `analyze_performance` populate different key sets.
* `time.time()` readings are modelled by an abstract clock `c : ℕ → ℚ`
  consumed in call order: `analyze_performance` reads the clock once at the
  start (index 0), twice per query (indices 2i+1 and 2i+2 around the i-th
  call), and once after the loop (index 2N+1).
* The statements `total_time / len(queries)` and
  `sum(r['confidence'] for r in successful_queries)` can raise
  (`ZeroDivisionError`, `TypeError`/`KeyError`), so the summary computation
  returns `Except String BatchSummary`.
-/

/-- A parsed JSON response of `query_documents`.  Outer `Option`: whether the
key is present; inner `Option`: the value, `none` being Python `None`. -/
structure ApiResponse where
  decision : Option (Option String) := none
  confidenceScore : Option (Option ℚ) := none
deriving DecidableEq

/-- Python `d.get(k)`: `None` when the key is absent, the stored value
otherwise. -/
def getField (f : Option (Option α)) : Option α :=
  f.getD none

/-- Python `d.get(k, default)`: `default` when the key is absent, the stored
value (possibly Python `None`) otherwise. -/
def getFieldD (f : Option (Option α)) (d : α) : Option α :=
  match f with
  | none => some d
  | some v => v

/-- One entry of the `results` list built by either runner.  Every field other
than `query` and `success` is wrapped in an outer `Option` recording whether
the corresponding dict key was populated at all. -/
structure OutcomeRecord where
  query : String
  success : Bool
  decision : Option (Option String) := none
  confidence : Option (Option ℚ) := none
  responseTime : Option ℚ := none
  error : Option String := none
deriving DecidableEq

/-- The dict appended by `batch_queries` for one query: on success the keys
`query`, `decision`, `confidence` (from `result.get('ConfidenceScore')`, no
default), `success`; on failure the keys `query`, `error`, `success`.  No
`response_time` key is ever written. -/
def mkBatchRecord (executeOne : String → Except String ApiResponse)
    (q : String) : OutcomeRecord :=
  match executeOne q with
  | .ok r =>
      { query := q
        success := true
        decision := some (getField r.decision)
        confidence := some (getField r.confidenceScore) }
  | .error msg =>
      { query := q
        success := false
        error := some msg }

/-- `NeuroDocWorkflow.batch_queries`: sequential loop, per-query
`try`/`except`, one record per query. -/
def batch_queries (executeOne : String → Except String ApiResponse) :
    List String → List OutcomeRecord
  | [] => []
  | q :: qs => mkBatchRecord executeOne q :: batch_queries executeOne qs

/-- The dict appended by `analyze_performance` for one query whose
surrounding `time.time()` readings are `c k` and `c (k+1)`: on success the
keys `query`, `decision`, `confidence` (from
`result.get('ConfidenceScore', 0)`), `response_time`, `success`; on failure
`query`, `error`, `response_time`, `success`. -/
def mkRecord (executeOne : String → Except String ApiResponse) (c : ℕ → ℚ)
    (q : String) (k : ℕ) : OutcomeRecord :=
  match executeOne q with
  | .ok r =>
      { query := q
        success := true
        decision := some (getField r.decision)
        confidence := some (getFieldD r.confidenceScore 0)
        responseTime := some (c (k + 1) - c k) }
  | .error msg =>
      { query := q
        success := false
        error := some msg
        responseTime := some (c (k + 1) - c k) }

/-- The `for` loop of `analyze_performance`: the head query consumes clock
readings `k` and `k+1`, the tail starts at reading `k+2`. -/
def analyzeLoop (executeOne : String → Except String ApiResponse)
    (c : ℕ → ℚ) : List String → ℕ → List OutcomeRecord
  | [], _ => []
  | q :: qs, k => mkRecord executeOne c q k :: analyzeLoop executeOne c qs (k + 2)

/-- The summary dict returned by `analyze_performance` (the non-raising
case). -/
structure BatchSummary where
  totalQueries : ℕ
  successfulQueries : ℕ
  totalTime : ℚ
  averageTime : ℚ
  successRate : ℚ
  averageConfidence : ℚ
  results : List OutcomeRecord
deriving DecidableEq

/-- Python `sum(r['confidence'] for r in rs)`: left-to-right, raises
`KeyError` at a record without the key and `TypeError` when the value is
Python `None`. -/
def sumConfidences : List OutcomeRecord → Except String ℚ
  | [] => .ok 0
  | r :: rs =>
      match r.confidence, sumConfidences rs with
      | some (some x), .ok s => .ok (x + s)
      | some (some _), .error m => .error m
      | some none, _ => .error "TypeError: unsupported operand type(s) for +: float and NoneType"
      | none, _ => .error "KeyError: confidence"

/-- `NeuroDocWorkflow.analyze_performance`: runs the loop, then builds the
summary dict.  `total_time / len(queries)` raises `ZeroDivisionError` when
`queries` is empty, and the confidence sum raises when a successful record
carries a `None` confidence; both are modelled as `Except.error`. -/
def analyze_performance (executeOne : String → Except String ApiResponse)
    (c : ℕ → ℚ) (queries : List String) : Except String BatchSummary :=
  let results := analyzeLoop executeOne c queries 1
  let total_time := c (2 * queries.length + 1) - c 0
  let successful := results.filter (fun r => r.success)
  if queries.length = 0 then
    .error "ZeroDivisionError: float division by zero"
  else
    match (if successful.isEmpty then .ok 0 else sumConfidences successful :
        Except String ℚ) with
    | .error m => .error m
    | .ok confSum =>
        .ok
          { totalQueries := queries.length
            successfulQueries := successful.length
            totalTime := total_time
            averageTime := total_time / (queries.length : ℚ)
            successRate := (successful.length : ℚ) / (queries.length : ℚ)
            averageConfidence :=
              if successful.isEmpty then 0 else confSum / (successful.length : ℚ)
            results := results }

/-- Sum of the `response_time` values of a record list (absent key counts
as 0; the analyzer always populates the key). -/
def sumResponseTimes (rs : List OutcomeRecord) : ℚ :=
  (rs.map (fun r => r.responseTime.getD 0)).sum

/-- The spec-side mean: arithmetic mean of the stored confidence values over
the records flagged successful, 0 when there is none. -/
def meanConf (rs : List OutcomeRecord) : ℚ :=
  let succ := rs.filter (fun r => r.success)
  if succ.length = 0 then 0
  else (succ.map (fun r => (getField r.confidence).getD 0)).sum / (succ.length : ℚ)

/-! ## Concrete instances used by counterexamples and witnesses -/

/-- A response carrying both keys with non-null values. -/
def okResponse (d : String) (conf : ℚ) : ApiResponse :=
  { decision := some (some d), confidenceScore := some (some conf) }

/-- An adapter that always succeeds with confidence 1/2. -/
def alwaysOk : String → Except String ApiResponse :=
  fun _ => .ok (okResponse "approved" (1 / 2))

/-- An adapter that always raises with message "boom". -/
def alwaysFail : String → Except String ApiResponse :=
  fun _ => .error "boom"

/-- An adapter that always raises with an empty message, as Python
`raise Exception()` would produce via `str(e)`. -/
def alwaysFailSilently : String → Except String ApiResponse :=
  fun _ => .error ""

/-- The identity clock: the n-th `time.time()` call returns `n`. -/
def idClock : ℕ → ℚ :=
  fun n => (n : ℚ)

/-- An adapter that fails on query "B" and succeeds elsewhere. -/
def mixedExec : String → Except String ApiResponse :=
  fun q => if q = "B" then .error "boom" else .ok (okResponse "yes" (1 / 2))

/-- An adapter whose responses carry no `ConfidenceScore` key at all. -/
def noConfExec : String → Except String ApiResponse :=
  fun _ => .ok { decision := some (some "ok") }

/-- An adapter whose responses carry `ConfidenceScore` present but null. -/
def nullConfExec : String → Except String ApiResponse :=
  fun _ => .ok { decision := some (some "d"), confidenceScore := some none }

/-- An adapter returning confidences 1/2, 9/10, 7/10 on queries "A", "B" and
anything else, respectively. -/
def exampleExec : String → Except String ApiResponse :=
  fun q =>
    if q = "A" then .ok (okResponse "yes" (1 / 2))
    else if q = "B" then .ok (okResponse "yes" (9 / 10))
    else .ok (okResponse "yes" (7 / 10))

/-- The summary `analyze_performance alwaysOk idClock ["q"]` returns. -/
def demoSummary : BatchSummary :=
  { totalQueries := 1, successfulQueries := 1, totalTime := 3, averageTime := 3,
    successRate := 1, averageConfidence := 1 / 2,
    results := [{ query := "q", success := true,
                  decision := some (some "approved"),
                  confidence := some (some (1 / 2)), responseTime := some 1 }] }

/-- The summary `analyze_performance exampleExec idClock ["A", "B", "C"]`
returns: average confidence is the mean 7/10. -/
def exampleSummary : BatchSummary :=
  { totalQueries := 3, successfulQueries := 3, totalTime := 7,
    averageTime := 7 / 3, successRate := 1, averageConfidence := 7 / 10,
    results :=
      [{ query := "A", success := true, decision := some (some "yes"),
         confidence := some (some (1 / 2)), responseTime := some 1 },
       { query := "B", success := true, decision := some (some "yes"),
         confidence := some (some (9 / 10)), responseTime := some 1 },
       { query := "C", success := true, decision := some (some "yes"),
         confidence := some (some (7 / 10)), responseTime := some 1 }] }

/-! ## Basic lemmas about the two loops -/

theorem batch_queries_length (e : String → Except String ApiResponse)
    (qs : List String) : (batch_queries e qs).length = qs.length := by
  induction qs with
  | nil => rfl
  | cons q qs ih => simp [batch_queries, ih]

theorem analyzeLoop_length (e : String → Except String ApiResponse)
    (c : ℕ → ℚ) (qs : List String) (k : ℕ) :
    (analyzeLoop e c qs k).length = qs.length := by
  induction qs generalizing k with
  | nil => rfl
  | cons q qs ih => simp [analyzeLoop, ih]

theorem batch_queries_getElem? (e : String → Except String ApiResponse)
    (qs : List String) (i : ℕ) :
    (batch_queries e qs)[i]? = (qs[i]?).map (mkBatchRecord e) := by
  induction qs generalizing i with
  | nil => simp [batch_queries]
  | cons q qs ih =>
      cases i with
      | zero => simp [batch_queries]
      | succ n => simpa [batch_queries] using ih n

theorem analyzeLoop_getElem? (e : String → Except String ApiResponse)
    (c : ℕ → ℚ) (qs : List String) (k i : ℕ) :
    (analyzeLoop e c qs k)[i]? = (qs[i]?).map (fun q => mkRecord e c q (k + 2 * i)) := by
  induction qs generalizing k i with
  | nil => simp [analyzeLoop]
  | cons q qs ih =>
      cases i with
      | zero => simp [analyzeLoop]
      | succ n =>
          have h := ih (k + 2) n
          simp only [analyzeLoop, List.getElem?_cons_succ]
          rw [h]
          have harith : k + 2 + 2 * n = k + 2 * (n + 1) := by ring
          simp [harith]

theorem analyzeLoop_mem (e : String → Except String ApiResponse)
    (c : ℕ → ℚ) (qs : List String) (k : ℕ) (r : OutcomeRecord)
    (hr : r ∈ analyzeLoop e c qs k) :
    ∃ q ∈ qs, ∃ j, r = mkRecord e c q j := by
  induction qs generalizing k with
  | nil => simp [analyzeLoop] at hr
  | cons q qs ih =>
      simp only [analyzeLoop, List.mem_cons] at hr
      rcases hr with h | h
      · exact ⟨q, List.mem_cons_self q qs, k, h⟩
      · obtain ⟨q2, hq2, j, hj⟩ := ih (k + 2) h
        exact ⟨q2, List.mem_cons_of_mem q hq2, j, hj⟩

/-! ## Lemmas about the confidence sum -/

theorem sumConfidences_ok_of_vals (rs : List OutcomeRecord)
    (h : ∀ r ∈ rs, ∃ x, r.confidence = some (some x)) :
    ∃ v, sumConfidences rs = .ok v := by
  induction rs with
  | nil => exact ⟨0, rfl⟩
  | cons r rs ih =>
      obtain ⟨x, hx⟩ := h r (List.mem_cons_self r rs)
      obtain ⟨v, hv⟩ := ih (fun a ha => h a (List.mem_cons_of_mem r ha))
      exact ⟨x + v, by simp [sumConfidences, hx, hv]⟩

theorem sumConfidences_ok_sum (rs : List OutcomeRecord) (v : ℚ)
    (h : sumConfidences rs = .ok v) :
    v = (rs.map (fun r => (getField r.confidence).getD 0)).sum := by
  induction rs generalizing v with
  | nil =>
      simp only [sumConfidences] at h
      cases h
      simp
  | cons r rs ih =>
      simp only [sumConfidences] at h
      rcases hc : r.confidence with _ | ⟨_ | x⟩ <;> rw [hc] at h
      · exact absurd h (by simp)
      · exact absurd h (by simp)
      · rcases hs : sumConfidences rs with m | s <;> rw [hs] at h
        · exact absurd h (by simp)
        · cases h
          simp [ih s hs, getField, hc]

theorem sumConfidences_error_of_null (rs : List OutcomeRecord)
    (h : ∃ r ∈ rs, r.confidence = some none) :
    ∃ m, sumConfidences rs = .error m := by
  induction rs with
  | nil => simp at h
  | cons r rs ih =>
      obtain ⟨a, ha, hconf⟩ := h
      rcases List.mem_cons.mp ha with rfl | hmem
      · exact ⟨"TypeError: unsupported operand type(s) for +: float and NoneType",
          by simp [sumConfidences, hconf]⟩
      · obtain ⟨m, hm⟩ := ih ⟨a, hmem, hconf⟩
        rcases hc : r.confidence with _ | ⟨_ | x⟩
        · exact ⟨"KeyError: confidence", by simp [sumConfidences, hc]⟩
        · exact ⟨"TypeError: unsupported operand type(s) for +: float and NoneType",
            by simp [sumConfidences, hc]⟩
        · exact ⟨m, by simp [sumConfidences, hc, hm]⟩

/-! ## Characterization of `analyze_performance` -/

theorem analyze_performance_ok_spec (e : String → Except String ApiResponse)
    (c : ℕ → ℚ) (qs : List String) (s : BatchSummary)
    (h : analyze_performance e c qs = .ok s) :
    qs.length ≠ 0 ∧
    s.results = analyzeLoop e c qs 1 ∧
    s.totalQueries = qs.length ∧
    s.successfulQueries = ((analyzeLoop e c qs 1).filter (fun r => r.success)).length ∧
    s.totalTime = c (2 * qs.length + 1) - c 0 ∧
    s.averageTime = s.totalTime / (qs.length : ℚ) ∧
    s.successRate = (s.successfulQueries : ℚ) / (qs.length : ℚ) ∧
    ∃ confSum,
      (if ((analyzeLoop e c qs 1).filter (fun r => r.success)).isEmpty then Except.ok 0
        else sumConfidences ((analyzeLoop e c qs 1).filter (fun r => r.success))) =
          Except.ok confSum ∧
      s.averageConfidence =
        (if ((analyzeLoop e c qs 1).filter (fun r => r.success)).isEmpty then 0
          else confSum / ((s.successfulQueries : ℚ))) := by
  unfold analyze_performance at h
  by_cases hq : qs.length = 0
  · rw [if_pos hq] at h
    exact absurd h (by simp)
  · rw [if_neg hq] at h
    rcases hsum : (if ((analyzeLoop e c qs 1).filter (fun r => r.success)).isEmpty
        then Except.ok 0
        else sumConfidences ((analyzeLoop e c qs 1).filter (fun r => r.success)) :
          Except String ℚ) with m | confSum <;> rw [hsum] at h
    · exact absurd h (by simp)
    · cases h
      exact ⟨hq, rfl, rfl, rfl, rfl, rfl, rfl, confSum, hsum, rfl⟩

theorem analyze_performance_ok_intro (e : String → Except String ApiResponse)
    (c : ℕ → ℚ) (qs : List String) (hq : qs.length ≠ 0) (confSum : ℚ)
    (hsum : (if ((analyzeLoop e c qs 1).filter (fun r => r.success)).isEmpty
        then Except.ok 0
        else sumConfidences ((analyzeLoop e c qs 1).filter (fun r => r.success)) :
          Except String ℚ) = Except.ok confSum) :
    analyze_performance e c qs =
      Except.ok
        { totalQueries := qs.length
          successfulQueries := ((analyzeLoop e c qs 1).filter (fun r => r.success)).length
          totalTime := c (2 * qs.length + 1) - c 0
          averageTime := (c (2 * qs.length + 1) - c 0) / (qs.length : ℚ)
          successRate :=
            (((analyzeLoop e c qs 1).filter (fun r => r.success)).length : ℚ) / (qs.length : ℚ)
          averageConfidence :=
            if ((analyzeLoop e c qs 1).filter (fun r => r.success)).isEmpty then 0
            else confSum / (((analyzeLoop e c qs 1).filter (fun r => r.success)).length : ℚ)
          results := analyzeLoop e c qs 1 } := by
  unfold analyze_performance
  rw [if_neg hq, hsum]

/-! ## Record-level helper lemmas -/

theorem mkBatchRecord_query (e : String → Except String ApiResponse) (q : String) :
    (mkBatchRecord e q).query = q := by
  cases h : e q <;> simp [mkBatchRecord, h]

theorem mkRecord_query (e : String → Except String ApiResponse) (c : ℕ → ℚ)
    (q : String) (k : ℕ) : (mkRecord e c q k).query = q := by
  cases h : e q <;> simp [mkRecord, h]

theorem mkBatchRecord_responseTime (e : String → Except String ApiResponse)
    (q : String) : (mkBatchRecord e q).responseTime = none := by
  cases h : e q <;> simp [mkBatchRecord, h]

theorem mkRecord_responseTime (e : String → Except String ApiResponse) (c : ℕ → ℚ)
    (q : String) (k : ℕ) :
    (mkRecord e c q k).responseTime = some (c (k + 1) - c k) := by
  cases h : e q <;> simp [mkRecord, h]

theorem mkRecord_error_case (e : String → Except String ApiResponse) (c : ℕ → ℚ)
    (q : String) (k : ℕ) (msg : String) (h : e q = .error msg) :
    (mkRecord e c q k).success = false ∧ (mkRecord e c q k).error = some msg := by
  simp [mkRecord, h]

theorem batch_queries_mem (e : String → Except String ApiResponse)
    (qs : List String) (r : OutcomeRecord) (hr : r ∈ batch_queries e qs) :
    ∃ q ∈ qs, r = mkBatchRecord e q := by
  induction qs with
  | nil => simp [batch_queries] at hr
  | cons q qs ih =>
      simp only [batch_queries, List.mem_cons] at hr
      rcases hr with h | h
      · exact ⟨q, List.mem_cons_self q qs, h⟩
      · obtain ⟨q2, hq2, hr2⟩ := ih h
        exact ⟨q2, List.mem_cons_of_mem q hq2, hr2⟩

/-- Exactly one of the success fields (`decision`, `confidence`) and the
`error` field is populated. -/
def exclusiveFields (r : OutcomeRecord) : Bool :=
  (r.decision.isSome && r.confidence.isSome && r.error.isNone) ||
  (r.decision.isNone && r.confidence.isNone && r.error.isSome)

theorem exclusiveFields_mkBatchRecord (e : String → Except String ApiResponse)
    (q : String) : exclusiveFields (mkBatchRecord e q) = true := by
  cases h : e q <;> simp [mkBatchRecord, exclusiveFields, h]

theorem exclusiveFields_mkRecord (e : String → Except String ApiResponse)
    (c : ℕ → ℚ) (q : String) (k : ℕ) :
    exclusiveFields (mkRecord e c q k) = true := by
  cases h : e q <;> simp [mkRecord, exclusiveFields, h]

theorem sumResponseTimes_cons (r : OutcomeRecord) (rs : List OutcomeRecord) :
    sumResponseTimes (r :: rs) = r.responseTime.getD 0 + sumResponseTimes rs := by
  simp [sumResponseTimes]

/-- Telescoping bound: for a step-monotone clock, the summed per-query
durations cannot exceed the clock advance across the whole loop. -/
theorem sumResponseTimes_analyzeLoop_le (e : String → Except String ApiResponse)
    (c : ℕ → ℚ) (qs : List String) (k : ℕ) (hm : ∀ n, c n ≤ c (n + 1)) :
    sumResponseTimes (analyzeLoop e c qs k) ≤ c (2 * qs.length + k) - c k := by
  induction qs generalizing k with
  | nil => simp [analyzeLoop, sumResponseTimes]
  | cons q qs ih =>
      have h1 : c (k + 1) ≤ c (k + 2) := hm (k + 1)
      have h2 := ih (k + 2)
      have harith : 2 * (q :: qs).length + k = 2 * qs.length + (k + 2) := by
        simp [List.length_cons]; ring
      rw [harith]
      simp only [analyzeLoop, sumResponseTimes_cons, mkRecord_responseTime,
        Option.getD_some]
      linarith

/-! ## Claim C1 -/

/-- C1: for every non-empty query list of length N, both runner loops produce
exactly N outcome records, and the i-th record carries the i-th input query,
for every adapter (hence regardless of how many `executeOne` calls fail). -/
theorem c1_runner_length_and_order (e : String → Except String ApiResponse)
    (c : ℕ → ℚ) (qs : List String) (i : ℕ) (hne : qs ≠ []) (hi : i < qs.length) :
    (batch_queries e qs).length = qs.length ∧
    (analyzeLoop e c qs 1).length = qs.length ∧
    ((batch_queries e qs).map (fun r => r.query))[i]? = qs[i]? ∧
    ((analyzeLoop e c qs 1).map (fun r => r.query))[i]? = qs[i]? := by
  refine ⟨batch_queries_length e qs, analyzeLoop_length e c qs 1, ?_, ?_⟩
  · rw [List.getElem?_map, batch_queries_getElem? e qs i]
    cases hq : qs[i]? with
    | none => simp
    | some q => simp [mkBatchRecord_query]
  · rw [List.getElem?_map, analyzeLoop_getElem? e c qs 1 i]
    cases hq : qs[i]? with
    | none => simp
    | some q => simp [mkRecord_query]

/-- Witness for C1 at the two-query batch `["a", "b"]` and index 1. -/
theorem c1_witness :
    (batch_queries alwaysOk ["a", "b"]).length = 2 ∧
    (analyzeLoop alwaysOk idClock ["a", "b"] 1).length = 2 ∧
    ((batch_queries alwaysOk ["a", "b"]).map (fun r => r.query))[1]? = some "b" ∧
    ((analyzeLoop alwaysOk idClock ["a", "b"] 1).map (fun r => r.query))[1]? = some "b" := by
  have h := c1_runner_length_and_order alwaysOk idClock ["a", "b"] 1
    (by decide) (by decide)
  simpa using h

/-! ## Claim C2 -/

/-- C2 (code bug): on the empty batch the summary step of
`analyze_performance` evaluates `total_time / len(queries)` with
`len(queries) = 0` and raises `ZeroDivisionError` instead of returning the
all-zero summary the specification mandates; the aggregation is therefore
not total. -/
theorem c2_empty_batch_raises (e : String → Except String ApiResponse)
    (c : ℕ → ℚ) :
    analyze_performance e c [] =
      Except.error "ZeroDivisionError: float division by zero" := rfl

/-! ## Claim C4 -/

/-- C4 counterexample: `batch_queries` never writes a `response_time` key, so
a completed attempt can lack a populated `responseTime`, refuting the claim
for records of that runner. -/
theorem c4_counterexample :
    ¬ ∀ r ∈ batch_queries alwaysFail ["q"], r.responseTime.isSome = true := by
  decide

/-- C4 amended: every record of either runner populates exactly one of the
success fields (`decision`, `confidence`) and the `error` field; records of
`analyze_performance` always populate `responseTime`, while records of
`batch_queries` never contain it. -/
theorem c4_field_population (e : String → Except String ApiResponse)
    (c : ℕ → ℚ) (qs : List String) (i : ℕ) (hi : i < qs.length) :
    ((batch_queries e qs).map
        (fun r => (exclusiveFields r, r.responseTime.isSome)))[i]? =
      some (true, false) ∧
    ((analyzeLoop e c qs 1).map
        (fun r => (exclusiveFields r, r.responseTime.isSome)))[i]? =
      some (true, true) := by
  constructor
  · rw [List.getElem?_map, batch_queries_getElem? e qs i,
      List.getElem?_eq_getElem hi]
    simp [exclusiveFields_mkBatchRecord, mkBatchRecord_responseTime]
  · rw [List.getElem?_map, analyzeLoop_getElem? e c qs 1 i,
      List.getElem?_eq_getElem hi]
    simp [exclusiveFields_mkRecord, mkRecord_responseTime]

/-- Witness for C4 at a batch mixing a success and a failure. -/
theorem c4_witness :
    ((batch_queries alwaysOk ["a", "b"]).map
        (fun r => (exclusiveFields r, r.responseTime.isSome)))[0]? =
      some (true, false) ∧
    ((analyzeLoop alwaysOk idClock ["a", "b"] 1).map
        (fun r => (exclusiveFields r, r.responseTime.isSome)))[0]? =
      some (true, true) :=
  c4_field_population alwaysOk idClock ["a", "b"] 0 (by decide)

/-! ## More helper lemmas and concrete evaluations -/

theorem batch_queries_query_map (e : String → Except String ApiResponse)
    (qs : List String) (j : ℕ) :
    ((batch_queries e qs).map (fun r => r.query))[j]? = qs[j]? := by
  rw [List.getElem?_map, batch_queries_getElem? e qs j]
  cases hq : qs[j]? with
  | none => simp
  | some q => simp [mkBatchRecord_query]

theorem analyzeLoop_query_map (e : String → Except String ApiResponse)
    (c : ℕ → ℚ) (qs : List String) (j : ℕ) :
    ((analyzeLoop e c qs 1).map (fun r => r.query))[j]? = qs[j]? := by
  rw [List.getElem?_map, analyzeLoop_getElem? e c qs 1 j]
  cases hq : qs[j]? with
  | none => simp
  | some q => simp [mkRecord_query]

theorem analyze_performance_error_intro (e : String → Except String ApiResponse)
    (c : ℕ → ℚ) (qs : List String) (m : String) (hq : qs.length ≠ 0)
    (hsum : (if ((analyzeLoop e c qs 1).filter (fun r => r.success)).isEmpty
        then Except.ok 0
        else sumConfidences ((analyzeLoop e c qs 1).filter (fun r => r.success)) :
          Except String ℚ) = Except.error m) :
    analyze_performance e c qs = Except.error m := by
  unfold analyze_performance
  rw [if_neg hq, hsum]

theorem demoSummary_ok :
    analyze_performance alwaysOk idClock ["q"] = Except.ok demoSummary := by
  norm_num [analyze_performance, analyzeLoop, mkRecord, alwaysOk, idClock,
    okResponse, getField, getFieldD, sumConfidences, demoSummary, List.filter]

theorem exampleSummary_ok :
    analyze_performance exampleExec idClock ["A", "B", "C"] =
      Except.ok exampleSummary := by
  have hA : exampleExec "A" = Except.ok (okResponse "yes" (1 / 2)) := rfl
  have hB : exampleExec "B" = Except.ok (okResponse "yes" (9 / 10)) := rfl
  have hC : exampleExec "C" = Except.ok (okResponse "yes" (7 / 10)) := rfl
  norm_num [analyze_performance, analyzeLoop, mkRecord, hA, hB, hC, idClock,
    okResponse, getField, getFieldD, sumConfidences, exampleSummary, List.filter]

theorem idClock_step (n : ℕ) : idClock n ≤ idClock (n + 1) := by
  simp [idClock]

/-! ## Claim C3 -/

/-- C3 counterexample: on the one-query batch with the identity clock the
summary's `totalTime` is 3 (the whole-loop elapsed time, readings 0 to 3)
while the sum of the outcome `responseTime` values is 1, so `totalTime` does
not equal the sum of the response times. -/
theorem c3_counterexample :
    (analyze_performance alwaysOk idClock ["q"]).toOption.map
        (fun s => s.totalTime) = some 3 ∧
    (analyze_performance alwaysOk idClock ["q"]).toOption.map
        (fun s => sumResponseTimes s.results) = some 1 ∧
    (3 : ℚ) ≠ 1 := by
  norm_num [analyze_performance, analyzeLoop, mkRecord, alwaysOk, idClock,
    okResponse, getField, getFieldD, sumConfidences, sumResponseTimes,
    List.filter, Except.toOption]

/-- C3 amended: `totalTime` is the elapsed wall-clock time around the whole
loop (final clock reading minus initial), which for a monotone clock is at
least — but not necessarily equal to — the sum of the outcome
`responseTime` values; `averageTime` does equal `totalTime / totalQueries`
for every batch that yields a summary. -/
theorem c3_total_time_wall_clock (e : String → Except String ApiResponse)
    (c : ℕ → ℚ) (qs : List String) (s : BatchSummary)
    (hm : ∀ n, c n ≤ c (n + 1))
    (hok : analyze_performance e c qs = Except.ok s) :
    s.totalTime = c (2 * qs.length + 1) - c 0 ∧
    s.averageTime = s.totalTime / (s.totalQueries : ℚ) ∧
    sumResponseTimes s.results ≤ s.totalTime := by
  obtain ⟨hq, hres, htq, hsq, htt, hat, hsr, -⟩ :=
    analyze_performance_ok_spec e c qs s hok
  refine ⟨htt, by rw [hat, htq, htt], ?_⟩
  rw [hres, htt]
  have h1 := sumResponseTimes_analyzeLoop_le e c qs 1 hm
  have h2 : c 0 ≤ c 1 := hm 0
  linarith

/-- Witness for C3 amended at the one-query batch with the identity clock. -/
theorem c3_witness :
    demoSummary.totalTime = idClock (2 * (["q"] : List String).length + 1) - idClock 0 ∧
    demoSummary.averageTime = demoSummary.totalTime / (demoSummary.totalQueries : ℚ) ∧
    sumResponseTimes demoSummary.results ≤ demoSummary.totalTime :=
  c3_total_time_wall_clock alwaysOk idClock ["q"] demoSummary idClock_step
    demoSummary_ok

/-! ## Claim C5 -/

/-- C5: whenever `analyze_performance` returns a summary, its
`averageConfidence` is the arithmetic mean of the stored confidence values
over the outcomes flagged successful, and it is 0 when no outcome is
successful (the adapter `exampleExec` with confidences 1/2, 9/10, 7/10
instantiates the spec's example, mean 7/10 — see the witness). -/
theorem c5_average_confidence_mean (e : String → Except String ApiResponse)
    (c : ℕ → ℚ) (qs : List String) (s : BatchSummary)
    (hok : analyze_performance e c qs = Except.ok s) :
    s.averageConfidence = meanConf s.results ∧
    (s.successfulQueries = 0 → s.averageConfidence = 0) := by
  obtain ⟨hq, hres, htq, hsq, htt, hat, hsr, confSum, hsum, havg⟩ :=
    analyze_performance_ok_spec e c qs s hok
  by_cases hE : ((analyzeLoop e c qs 1).filter (fun r => r.success)).isEmpty
  · have hnil : (analyzeLoop e c qs 1).filter (fun r => r.success) = [] :=
      List.isEmpty_iff.mp hE
    constructor
    · rw [havg, if_pos hE, meanConf, hres]
      simp [hnil]
    · intro
      rw [havg, if_pos hE]
  · have hnonnil : (analyzeLoop e c qs 1).filter (fun r => r.success) ≠ [] :=
      fun h => hE (by simp [h])
    have hlen : ((analyzeLoop e c qs 1).filter (fun r => r.success)).length ≠ 0 := by
      simpa [List.length_eq_zero] using hnonnil
    rw [if_neg hE] at hsum
    have hval := sumConfidences_ok_sum _ confSum hsum
    constructor
    · rw [havg, if_neg hE, meanConf, hres]
      simp only [if_neg hlen]
      rw [hsq, hval]
    · intro h0
      rw [hsq] at h0
      exact absurd h0 hlen

/-- Witness for C5 at the spec's example batch: the summary's average
confidence is 7/10, the mean of 1/2, 9/10, 7/10. -/
theorem c5_witness :
    exampleSummary.averageConfidence = meanConf exampleSummary.results ∧
    (exampleSummary.successfulQueries = 0 → exampleSummary.averageConfidence = 0) ∧
    exampleSummary.averageConfidence = 7 / 10 :=
  have h := c5_average_confidence_mean exampleExec idClock ["A", "B", "C"]
    exampleSummary exampleSummary_ok
  ⟨h.1, h.2, rfl⟩

/-! ## Claim C6 -/

/-- C6: when `executeOne` raises on the i-th query, both runners record a
failure outcome for it carrying the raised message, keep processing every
other query (one record per query, in order), and the batch is never aborted
by the failure: `analyze_performance` still returns a summary whenever the
successful outcomes have summable confidences. -/
theorem c6_per_query_failure_isolated (e : String → Except String ApiResponse)
    (c : ℕ → ℚ) (qs : List String) (i : ℕ) (msg : String)
    (hi : i < qs.length)
    (he : e (qs.get ⟨i, hi⟩) = Except.error msg) :
    (batch_queries e qs).length = qs.length ∧
    (analyzeLoop e c qs 1).length = qs.length ∧
    ((batch_queries e qs).map (fun r => (r.success, r.error)))[i]? =
      some (false, some msg) ∧
    ((analyzeLoop e c qs 1).map (fun r => (r.success, r.error)))[i]? =
      some (false, some msg) ∧
    (∀ j : ℕ, ((batch_queries e qs).map (fun r => r.query))[j]? = qs[j]?) ∧
    (∀ j : ℕ, ((analyzeLoop e c qs 1).map (fun r => r.query))[j]? = qs[j]?) ∧
    ((∀ r ∈ analyzeLoop e c qs 1, r.success = true → ∃ x, r.confidence = some (some x)) →
      ∃ s, analyze_performance e c qs = Except.ok s) := by
  have he2 : e qs[i] = Except.error msg := by
    simpa [List.get_eq_getElem] using he
  have hlen : qs.length ≠ 0 := by omega
  refine ⟨batch_queries_length e qs, analyzeLoop_length e c qs 1, ?_, ?_,
    batch_queries_query_map e qs, analyzeLoop_query_map e c qs, ?_⟩
  · rw [List.getElem?_map, batch_queries_getElem? e qs i,
      List.getElem?_eq_getElem hi]
    simp [mkBatchRecord, he2]
  · rw [List.getElem?_map, analyzeLoop_getElem? e c qs 1 i,
      List.getElem?_eq_getElem hi]
    simp [mkRecord, he2]
  · intro hconf
    by_cases hE : ((analyzeLoop e c qs 1).filter (fun r => r.success)).isEmpty
    · exact ⟨_, analyze_performance_ok_intro e c qs hlen 0 (by rw [if_pos hE])⟩
    · have hvals : ∀ r ∈ (analyzeLoop e c qs 1).filter (fun r => r.success),
          ∃ x, r.confidence = some (some x) := by
        intro r hr
        have hm := List.mem_filter.mp hr
        exact hconf r hm.1 (by simpa using hm.2)
      obtain ⟨v, hv⟩ := sumConfidences_ok_of_vals _ hvals
      exact ⟨_, analyze_performance_ok_intro e c qs hlen v (by rw [if_neg hE, hv])⟩

/-- Witness for C6 at the batch `["A", "B", "C"]` whose adapter raises on
"B" only. -/
theorem c6_witness :
    (batch_queries mixedExec ["A", "B", "C"]).length = 3 ∧
    (analyzeLoop mixedExec idClock ["A", "B", "C"] 1).length = 3 ∧
    ((batch_queries mixedExec ["A", "B", "C"]).map
        (fun r => (r.success, r.error)))[1]? = some (false, some "boom") ∧
    ((analyzeLoop mixedExec idClock ["A", "B", "C"] 1).map
        (fun r => (r.success, r.error)))[1]? = some (false, some "boom") ∧
    (∀ j : ℕ, ((batch_queries mixedExec ["A", "B", "C"]).map
        (fun r => r.query))[j]? = (["A", "B", "C"] : List String)[j]?) ∧
    (∀ j : ℕ, ((analyzeLoop mixedExec idClock ["A", "B", "C"] 1).map
        (fun r => r.query))[j]? = (["A", "B", "C"] : List String)[j]?) ∧
    (∃ s, analyze_performance mixedExec idClock ["A", "B", "C"] = Except.ok s) := by
  have h := c6_per_query_failure_isolated mixedExec idClock ["A", "B", "C"] 1
    "boom" (by norm_num) rfl
  refine ⟨h.1, h.2.1, h.2.2.1, h.2.2.2.1, h.2.2.2.2.1, h.2.2.2.2.2.1, ?_⟩
  refine h.2.2.2.2.2.2 ?_
  intro r hr hsucc
  have hA : mixedExec "A" = Except.ok (okResponse "yes" (1 / 2)) := rfl
  have hB : mixedExec "B" = Except.error "boom" := rfl
  have hC : mixedExec "C" = Except.ok (okResponse "yes" (1 / 2)) := rfl
  simp only [analyzeLoop, mkRecord, hA, hB, hC, okResponse, getField,
    getFieldD, List.mem_cons, List.mem_singleton, List.not_mem_nil,
    or_false] at hr
  rcases hr with rfl | rfl | rfl
  · exact ⟨1 / 2, rfl⟩
  · simp at hsucc
  · exact ⟨1 / 2, rfl⟩

/-! ## Claim C7 -/

/-- C7 counterexample: the runner stores `str(e)` verbatim, so an adapter
raising an exception with an empty string representation yields a failure
outcome whose `error` is the empty string, refuting "a non-empty error
string". -/
theorem c7_counterexample :
    ¬ ∀ r ∈ batch_queries alwaysFailSilently ["q"], r.error ≠ some "" := by
  decide

/-- C7 amended: if `executeOne` raises on every query of a non-empty batch,
every outcome record of either runner has `success = false` and `error`
equal to the raised message (hence non-empty whenever the raised messages
are non-empty), and the returned summary has `successfulQueries = 0`,
`successRate = 0` and `averageConfidence = 0`. -/
theorem c7_all_raise (e : String → Except String ApiResponse) (c : ℕ → ℚ)
    (qs : List String) (hne : qs ≠ [])
    (hfail : ∀ q ∈ qs, ∃ m, e q = Except.error m ∧ m ≠ "") :
    ∃ s, analyze_performance e c qs = Except.ok s ∧
      s.successfulQueries = 0 ∧ s.successRate = 0 ∧ s.averageConfidence = 0 ∧
      (∀ r ∈ s.results, r.success = false ∧ ∃ m, r.error = some m ∧ m ≠ "") ∧
      (∀ r ∈ batch_queries e qs, r.success = false ∧ ∃ m, r.error = some m ∧ m ≠ "") := by
  have hall : ∀ r ∈ analyzeLoop e c qs 1,
      r.success = false ∧ ∃ m, r.error = some m ∧ m ≠ "" := by
    intro r hr
    obtain ⟨q, hq, j, rfl⟩ := analyzeLoop_mem e c qs 1 r hr
    obtain ⟨m, hm, hm2⟩ := hfail q hq
    obtain ⟨h1, h2⟩ := mkRecord_error_case e c q j m hm
    exact ⟨h1, m, h2, hm2⟩
  have hfilt : (analyzeLoop e c qs 1).filter (fun r => r.success) = [] := by
    rw [List.filter_eq_nil_iff]
    intro a ha
    simp [(hall a ha).1]
  have hE : ((analyzeLoop e c qs 1).filter (fun r => r.success)).isEmpty = true := by
    simp [hfilt]
  have hlen : qs.length ≠ 0 := by
    simpa [List.length_eq_zero] using hne
  refine ⟨_, analyze_performance_ok_intro e c qs hlen 0 (by rw [if_pos hE]),
    ?_, ?_, ?_, ?_, ?_⟩
  · simp [hfilt]
  · simp [hfilt]
  · simp [hE]
  · exact hall
  · intro r hr
    obtain ⟨q, hq, rfl⟩ := batch_queries_mem e qs r hr
    obtain ⟨m, hm, hm2⟩ := hfail q hq
    exact ⟨by simp [mkBatchRecord, hm], m, by simp [mkBatchRecord, hm], hm2⟩

/-- Witness for C7 amended at the two-query batch whose adapter always raises
"boom". -/
theorem c7_witness :
    ∃ s, analyze_performance alwaysFail idClock ["a", "b"] = Except.ok s ∧
      s.successfulQueries = 0 ∧ s.successRate = 0 ∧ s.averageConfidence = 0 ∧
      (∀ r ∈ s.results, r.success = false ∧ ∃ m, r.error = some m ∧ m ≠ "") ∧
      (∀ r ∈ batch_queries alwaysFail ["a", "b"],
        r.success = false ∧ ∃ m, r.error = some m ∧ m ≠ "") :=
  c7_all_raise alwaysFail idClock ["a", "b"] (by simp)
    (fun q hq => ⟨"boom", rfl, by simp⟩)

/-! ## Claim C8 -/

/-- C8: for a successful `executeOne` response lacking the `ConfidenceScore`
key, `analyze_performance` records confidence 0 (the `.get` default) and the
record contributes 0 to the confidence sum behind `averageConfidence`, while
`batch_queries` records Python `None` (no default) for the same response. -/
theorem c8_missing_confidence_defaults (e : String → Except String ApiResponse)
    (c : ℕ → ℚ) (qs : List String) (q : String) (i : ℕ) (r : ApiResponse)
    (hq : qs[i]? = some q) (he : e q = Except.ok r)
    (habs : r.confidenceScore = none) :
    ((analyzeLoop e c qs 1).map (fun a => a.confidence))[i]? =
      some (some (some 0)) ∧
    ((batch_queries e qs).map (fun a => a.confidence))[i]? = some (some none) ∧
    (∀ a, (analyzeLoop e c qs 1)[i]? = some a →
      ∀ rest v, sumConfidences rest = Except.ok v →
        sumConfidences (a :: rest) = Except.ok v) := by
  have h1 : (analyzeLoop e c qs 1)[i]? = some (mkRecord e c q (1 + 2 * i)) := by
    rw [analyzeLoop_getElem?, hq]
    rfl
  have hconf : (mkRecord e c q (1 + 2 * i)).confidence = some (some 0) := by
    simp [mkRecord, he, habs, getFieldD]
  refine ⟨?_, ?_, ?_⟩
  · rw [List.getElem?_map, h1]
    simp [hconf]
  · rw [List.getElem?_map, batch_queries_getElem?, hq]
    simp [mkBatchRecord, he, habs, getField]
  · intro a ha rest v hrest
    rw [h1] at ha
    cases ha
    simp [sumConfidences, hconf, hrest]

/-- Witness for C8 at a one-query batch whose response has no
`ConfidenceScore` key. -/
theorem c8_witness :
    ((analyzeLoop noConfExec idClock ["q"] 1).map
        (fun a => a.confidence))[0]? = some (some (some 0)) ∧
    ((batch_queries noConfExec ["q"]).map
        (fun a => a.confidence))[0]? = some (some none) ∧
    (∀ a, (analyzeLoop noConfExec idClock ["q"] 1)[0]? = some a →
      ∀ rest v, sumConfidences rest = Except.ok v →
        sumConfidences (a :: rest) = Except.ok v) :=
  c8_missing_confidence_defaults noConfExec idClock ["q"] "q" 0
    { decision := some (some "ok") } rfl rfl rfl

/-! ## Claim C9 -/

/-- C9: a successful response whose `ConfidenceScore` is present but null
makes the confidence sum of the aggregation step raise, so the whole
`analyze_performance` call fails after the loop despite the per-query error
handling: the summary computation is not total over such outcomes. -/
theorem c9_null_confidence_raises (e : String → Except String ApiResponse)
    (c : ℕ → ℚ) (qs : List String) (q : String) (i : ℕ) (r : ApiResponse)
    (hq : qs[i]? = some q) (he : e q = Except.ok r)
    (hnull : r.confidenceScore = some none) :
    ∃ m, analyze_performance e c qs = Except.error m := by
  have h1 : (analyzeLoop e c qs 1)[i]? = some (mkRecord e c q (1 + 2 * i)) := by
    rw [analyzeLoop_getElem?, hq]
    rfl
  have hmem : mkRecord e c q (1 + 2 * i) ∈ analyzeLoop e c qs 1 :=
    List.getElem?_mem h1
  have hsucc : (mkRecord e c q (1 + 2 * i)).success = true := by
    simp [mkRecord, he]
  have hconf : (mkRecord e c q (1 + 2 * i)).confidence = some none := by
    simp [mkRecord, he, hnull, getFieldD]
  have hmf : mkRecord e c q (1 + 2 * i) ∈
      (analyzeLoop e c qs 1).filter (fun r => r.success) :=
    List.mem_filter.mpr ⟨hmem, by simp [hsucc]⟩
  obtain ⟨m, hm⟩ := sumConfidences_error_of_null _ ⟨_, hmf, hconf⟩
  have hE : ¬ ((analyzeLoop e c qs 1).filter (fun r => r.success)).isEmpty = true := by
    rw [List.isEmpty_iff]
    exact List.ne_nil_of_mem hmf
  have hlen : qs.length ≠ 0 := by
    obtain ⟨hlt, -⟩ := List.getElem?_eq_some_iff.mp hq
    omega
  exact ⟨m, analyze_performance_error_intro e c qs m hlen (by rw [if_neg hE, hm])⟩

/-- Witness for C9 at a one-query batch whose response carries a null
`ConfidenceScore`. -/
theorem c9_witness :
    ∃ m, analyze_performance nullConfExec idClock ["q"] = Except.error m :=
  c9_null_confidence_raises nullConfExec idClock ["q"] "q" 0
    { decision := some (some "d"), confidenceScore := some none } rfl rfl rfl

/-! ## Claim C10 -/

/-- C10: every summary returned by `analyze_performance` carries, in its
`results` field, the complete outcome list of the batch: one record per
input query, in input order, alongside the aggregate fields. -/
theorem c10_summary_carries_results (e : String → Except String ApiResponse)
    (c : ℕ → ℚ) (qs : List String) (s : BatchSummary)
    (hok : analyze_performance e c qs = Except.ok s) :
    s.results = analyzeLoop e c qs 1 ∧
    s.results.length = qs.length ∧
    ∀ i : ℕ, (s.results.map (fun r => r.query))[i]? = qs[i]? := by
  obtain ⟨-, hres, -⟩ := analyze_performance_ok_spec e c qs s hok
  refine ⟨hres, ?_, ?_⟩
  · rw [hres]
    exact analyzeLoop_length e c qs 1
  · intro i
    rw [hres]
    exact analyzeLoop_query_map e c qs i

/-- Witness for C10 at the one-query batch with the identity clock. -/
theorem c10_witness :
    demoSummary.results = analyzeLoop alwaysOk idClock ["q"] 1 ∧
    demoSummary.results.length = 1 ∧
    ∀ i : ℕ, (demoSummary.results.map (fun r => r.query))[i]? =
      (["q"] : List String)[i]? :=
  c10_summary_carries_results alwaysOk idClock ["q"] demoSummary demoSummary_ok
